import Mathlib

/-!
Verification development for the chemical-patent-analyzer backend.

The Python sources (src/routes/patent.py and src/services/patent_analyzer.py)
are shallowly embedded below: pure text processing becomes Lean functions over
`List Char`, the regex patterns of the source are embedded via a small
backtracking matcher with Python `re` leftmost/greedy/lazy semantics, the
in-memory task registry becomes an association list, and the background worker
`run_analysis` becomes an explicit list of registry write operations (one per
Python statement that mutates the task entry).  External collaborators
(PyMuPDF, PIL, the filesystem, `random.choice`) are modelled as explicit
inputs, as the spec designates them out-of-scope black boxes.
Character classes (`\w`, `\s`, case folding) follow Python semantics on the
ASCII range, which covers every concrete input used in the theorems.
-/

namespace ChemPatent

/-- Python whitespace class `\s` on the ASCII range. -/
def isSpacePy (c : Char) : Bool :=
  c = ' ' || c = '\t' || c = '\n' || c = '\r' || c = '\x0b' || c = '\x0c'

/-- Python word-character class `\w` (ASCII range), used by `\b`. -/
def isWordPy (c : Char) : Bool :=
  c.isAlphanum || c = '_'

/-- Python `str.strip()`: drop leading and trailing whitespace. -/
def pyStrip (s : List Char) : List Char :=
  ((s.dropWhile isSpacePy).reverse.dropWhile isSpacePy).reverse

/-- Does `s` start with `p`? -/
def startsWithL : List Char → List Char → Bool
  | [], _ => true
  | _ :: _, [] => false
  | a :: as, b :: bs => a = b && startsWithL as bs

/-- Python's substring test `needle in hay`. -/
def hasSubstr (hay needle : List Char) : Bool :=
  if startsWithL needle hay then true
  else
    match hay with
    | [] => false
    | _ :: t => hasSubstr t needle

/-! ### A small regex engine with Python `re` semantics

Only the constructs appearing in the source's patterns are supported:
character classes, sequencing, alternation, greedy `?"/"*`, lazy `*?`,
word boundary `\b`, MULTILINE `$`, lookahead `(?=...)`, and one capture
group.  Matching is continuation-passing backtracking, which reproduces
Python's leftmost, greedy-first / lazy-first preference order. -/

inductive RE where
  | eps
  | cls (p : Char → Bool)
  | wordB
  | eol
  | seq (a b : RE)
  | alt (a b : RE)
  | opt (a : RE)
  | star (a : RE)
  | lazyStar (a : RE)
  | look (a : RE)
  | capL
  | capR

/-- Matcher state: the character just before the current position (for `\b`),
the remaining input, the remaining input at the capture start, and the
completed capture (group 1), if any. -/
structure MSt where
  prev : Option Char
  rest : List Char
  capS : List Char
  capG : Option (List Char)

def prevIsWord : Option Char → Bool
  | none => false
  | some c => isWordPy c

def headIsWord : List Char → Bool
  | [] => false
  | c :: _ => isWordPy c

/-- Greedy iteration for `star`: try one more body iteration first, fall back
to the continuation.  `fuel` bounds the number of iterations; every starred
body in the source's patterns consumes at least one character, so a fuel of
`input length + 1` is always sufficient. -/
def starLoop (fuel : Nat) (m : MSt → (MSt → Option MSt) → Option MSt)
    (st : MSt) (k : MSt → Option MSt) : Option MSt :=
  match fuel with
  | 0 => k st
  | f + 1 =>
    match m st (fun st1 => starLoop f m st1 k) with
    | some r => some r
    | none => k st

/-- Lazy iteration for `lazyStar`: try the continuation first, then one more
body iteration. -/
def lazyLoop (fuel : Nat) (m : MSt → (MSt → Option MSt) → Option MSt)
    (st : MSt) (k : MSt → Option MSt) : Option MSt :=
  match fuel with
  | 0 => k st
  | f + 1 =>
    match k st with
    | some r => some r
    | none => m st (fun st1 => lazyLoop f m st1 k)

/-- The backtracking matcher.  `k` is the continuation receiving the state
after `r` has matched; the first success in preference order wins. -/
def mat (fuel : Nat) : RE → MSt → (MSt → Option MSt) → Option MSt
  | .eps, st, k => k st
  | .cls p, st, k =>
    match st.rest with
    | [] => none
    | c :: cs => if p c then k { st with prev := some c, rest := cs } else none
  | .wordB, st, k =>
    if prevIsWord st.prev != headIsWord st.rest then k st else none
  | .eol, st, k =>
    match st.rest with
    | [] => k st
    | c :: _ => if c = '\n' then k st else none
  | .seq a b, st, k => mat fuel a st (fun st1 => mat fuel b st1 k)
  | .alt a b, st, k =>
    match mat fuel a st k with
    | some r => some r
    | none => mat fuel b st k
  | .opt a, st, k =>
    match mat fuel a st k with
    | some r => some r
    | none => k st
  | .star a, st, k => starLoop fuel (fun st1 k1 => mat fuel a st1 k1) st k
  | .lazyStar a, st, k => lazyLoop fuel (fun st1 k1 => mat fuel a st1 k1) st k
  | .look a, st, k =>
    match mat fuel a st some with
    | some _ => k st
    | none => none
  | .capL, st, k => k { st with capS := st.rest }
  | .capR, st, k =>
    k { st with capG := some (st.capS.take (st.capS.length - st.rest.length)) }

/-- Try to match `r` at the current position (given the preceding character
`prev` and remaining input `s`); returns the final state of the leftmost
preference-order match at this position. -/
def matchAt (r : RE) (prev : Option Char) (s : List Char) : Option MSt :=
  mat (s.length + 1) r ⟨prev, s, [], none⟩ some

/-- `re.findall` (for patterns without capture groups): scan left to right,
collect non-overlapping matches, restarting after each match. -/
def scanAll (fuel : Nat) (r : RE) (prev : Option Char) (s : List Char) :
    List (List Char) :=
  match fuel with
  | 0 => []
  | f + 1 =>
    match matchAt r prev s with
    | some st =>
      match s.length - st.rest.length, s with
      | 0, [] => [[]]
      | 0, c :: cs => [] :: scanAll f r (some c) cs
      | n + 1, _ =>
        let m := s.take (n + 1)
        let prev1 := match m.getLast? with
          | some c => some c
          | none => prev
        m :: scanAll f r prev1 (s.drop (n + 1))
    | none =>
      match s with
      | [] => []
      | c :: cs => scanAll f r (some c) cs

def findall (r : RE) (s : List Char) : List (List Char) :=
  scanAll (s.length + 1) r none s

/-- `re.search` for patterns with one capture group: leftmost match, returning
`group(1)`. -/
def searchCap (fuel : Nat) (r : RE) (prev : Option Char) (s : List Char) :
    Option (List Char) :=
  match fuel with
  | 0 => none
  | f + 1 =>
    match matchAt r prev s with
    | some st => some (st.capG.getD [])
    | none =>
      match s with
      | [] => none
      | c :: cs => searchCap f r (some c) cs

def reSearch (r : RE) (s : List Char) : Option (List Char) :=
  searchCap (s.length + 1) r none s

/-- Literal character (case-sensitive). -/
def litc (c : Char) : RE := .cls (fun x => x = c)

/-- Literal character under `re.IGNORECASE` (ASCII case folding, as in
Python's `re` on ASCII input). -/
def litci (c : Char) : RE := .cls (fun x => x.toLower = c.toLower)

/-- Case-insensitive literal string. -/
def strRE (s : String) : RE :=
  s.data.foldr (fun c r => RE.seq (litci c) r) RE.eps

/-! ### `PatentAnalyzer._extract_chemical_formulas`

The three regex patterns of patent_analyzer.py lines 146-153, transliterated
construct by construct. -/

/-- `\d+` -/
def digitsP : RE := .seq (.cls Char.isDigit) (.star (.cls Char.isDigit))

/-- `[A-Z][a-z]?(?:\d+)?` -/
def elemSeg : RE :=
  .seq (.cls Char.isUpper) (.seq (.opt (.cls Char.isLower)) (.opt digitsP))

/-- `\b[A-Z][a-z]?(?:\d+)?(?:[A-Z][a-z]?(?:\d+)?)*\b` -/
def pat1 : RE := .seq .wordB (.seq elemSeg (.seq (.star elemSeg) .wordB))

/-- `\([A-Z][a-z]?(?:\d+)?\)(?:\d+)?` -/
def parenSeg : RE :=
  .seq (litc '(') (.seq elemSeg (.seq (litc ')') (.opt digitsP)))

/-- `\b[A-Z][a-z]?(?:\d+)?(?:\([A-Z][a-z]?(?:\d+)?\)(?:\d+)?)*(?:[A-Z][a-z]?(?:\d+)?)*\b` -/
def pat2 : RE :=
  .seq .wordB (.seq elemSeg (.seq (.star parenSeg) (.seq (.star elemSeg) .wordB)))

/-- `[A-Z][a-z]?\d*` -/
def tailSeg : RE :=
  .seq (.cls Char.isUpper) (.seq (.opt (.cls Char.isLower)) (.star (.cls Char.isDigit)))

/-- `\bC\d+H\d+(?:[A-Z][a-z]?\d*)*\b` -/
def pat3 : RE :=
  .seq .wordB (.seq (litc 'C') (.seq digitsP
    (.seq (litc 'H') (.seq digitsP (.seq (.star tailSeg) .wordB)))))

/-- The `common_elements` list of `_is_likely_chemical_formula`; `elem in
formula` in Python is substring containment. -/
def common_elements : List (List Char) :=
  ["C".data, "H".data, "O".data, "N".data, "S".data, "P".data, "Cl".data,
   "Br".data, "F".data, "I".data, "Na".data, "K".data, "Ca".data, "Mg".data]

/-- The `avoid_words` list of `_is_likely_chemical_formula`. -/
def avoid_words : List (List Char) :=
  ["THE".data, "AND".data, "FOR".data, "WITH".data, "ARE".data, "CAN".data,
   "MAY".data, "USE".data]

/-- `PatentAnalyzer._is_likely_chemical_formula` (patent_analyzer.py 165-179).
The computed-but-unused `has_uppercase` of the source is omitted; the returned
expression is exactly the source's. -/
def is_likely_chemical_formula (f : List Char) : Bool :=
  let has_number := f.any Char.isDigit
  let has_common_element := common_elements.any (fun e => hasSubstr f e)
  let is_avoid_word := avoid_words.contains (f.map Char.toUpper)
  has_common_element && (has_number || decide (f.length ≤ 6)) && !is_avoid_word

/-- The accumulation loop of `_extract_chemical_formulas` (lines 155-161):
keep candidates of length ≥ 2 passing the heuristic, skipping duplicates,
appending in encounter order. -/
def formulaLoop : List (List Char) → List (List Char) → List (List Char)
  | [], acc => acc
  | m :: ms, acc =>
    if 2 ≤ m.length ∧ is_likely_chemical_formula m = true ∧ m ∉ acc then
      formulaLoop ms (acc ++ [m])
    else
      formulaLoop ms acc

/-- `PatentAnalyzer._extract_chemical_formulas` (patent_analyzer.py 141-163):
run the three patterns in order, accumulate filtered deduplicated matches,
cap the list at 20. -/
def extract_chemical_formulas (text : List Char) : List (List Char) :=
  (formulaLoop (findall pat1 text ++ findall pat2 text ++ findall pat3 text) []).take 20

/-! ### `PatentAnalyzer._extract_patent_elements`

The bilingual field patterns of patent_analyzer.py lines 96-128, compiled with
`re.DOTALL | re.IGNORECASE | re.MULTILINE`: literals are case-insensitive,
`.` matches newline, and `$` matches before any newline or at the end. -/

/-- `\s*` -/
def wsStar : RE := .star (.cls isSpacePy)

/-- `:?` -/
def colonOpt : RE := .opt (litci ':')

/-- The capture group `(.*?)`: lazy dot-star under DOTALL. -/
def grp : RE := .seq .capL (.seq (.lazyStar (.cls (fun _ => true))) .capR)

/-- `(?:\n|$)` with MULTILINE `$`. -/
def lineEnd : RE := .alt (litc '\n') .eol

/-- `[A-Z]` under IGNORECASE: any ASCII letter. -/
def upperCI : RE := .cls (fun c => c.isUpper || c.isLower)

/-- `(?=\n\n|\n[A-Z]|$)` with MULTILINE `$`. -/
def blockEnd : RE :=
  .look (.alt (.seq (litc '\n') (litc '\n')) (.alt (.seq (litc '\n') upperCI) .eol))

/-- `LEAD\s*:?\s*(.*?)(?:\n|$)` -/
def linePat (lead : RE) : RE :=
  .seq lead (.seq wsStar (.seq colonOpt (.seq wsStar (.seq grp lineEnd))))

/-- `LEAD\s*:?\s*(.*?)(?=\n\n|\n[A-Z]|$)` -/
def blockPat (lead : RE) : RE :=
  .seq lead (.seq wsStar (.seq colonOpt (.seq wsStar (.seq grp blockEnd))))

/-- `Claims?` / `CLAIMS?` (identical under IGNORECASE). -/
def claimsLead : RE := .seq (strRE "Claim") (.opt (litci 's'))

/-- `Inventors?` -/
def inventorsLead : RE := .seq (strRE "Inventor") (.opt (litci 's'))

/-- `Applicants?` -/
def applicantLead : RE := .seq (strRE "Applicant") (.opt (litci 's'))

/-- `(?:Detailed )?Description` -/
def descriptionLead : RE := .seq (.opt (strRE "Detailed ")) (strRE "Description")

def titlePats : List RE :=
  [linePat (strRE "Title of Invention"), linePat (strRE "發明名稱"),
   linePat (strRE "TITLE"), linePat (strRE "標題")]

def abstractPats : List RE :=
  [blockPat (strRE "Abstract"), blockPat (strRE "摘要"), blockPat (strRE "ABSTRACT")]

def claimsPats : List RE :=
  [blockPat claimsLead, blockPat (strRE "請求項"), blockPat claimsLead]

def inventorsPats : List RE :=
  [linePat inventorsLead, linePat (strRE "發明人"), linePat inventorsLead]

def applicantPats : List RE :=
  [linePat applicantLead, linePat (strRE "申請人"), linePat applicantLead]

def descriptionPats : List RE :=
  [blockPat descriptionLead, blockPat (strRE "詳細說明"), blockPat (strRE "DESCRIPTION")]

/-- The per-field inner loop of `_extract_patent_elements` (lines 131-137):
try each pattern in order; on a match whose stripped group is non-empty and
longer than 5 characters, store its 500-character truncation and stop;
otherwise keep trying further patterns. -/
def tryPatterns (text : List Char) : List RE → Option (List Char)
  | [] => none
  | p :: ps =>
    match reSearch p text with
    | some g =>
      let content := pyStrip g
      if content ≠ [] ∧ 5 < content.length then some (content.take 500)
      else tryPatterns text ps
    | none => tryPatterns text ps

def fieldPatterns : List (String × List RE) :=
  [("title", titlePats), ("abstract", abstractPats), ("claims", claimsPats),
   ("inventors", inventorsPats), ("applicant", applicantPats),
   ("description", descriptionPats)]

/-- `PatentAnalyzer._extract_patent_elements` (patent_analyzer.py 91-139):
the resulting field-to-text mapping, in field order. -/
def extract_patent_elements (text : List Char) : List (String × List Char) :=
  fieldPatterns.filterMap (fun fp => (tryPatterns text fp.2).map (fun v => (fp.1, v)))

/-- Modelled from the spec's words, for refinement comparison with
`tryPatterns`: "try an ordered list of bilingual regex patterns against the
full text; take the first non-trivial match (length > 5 characters), truncate
to a fixed cap, and move to the next field" — this is the "first non-trivial
match" selector, before truncation. -/
def firstNontrivialContent (text : List Char) : List RE → Option (List Char)
  | [] => none
  | p :: ps =>
    match reSearch p text with
    | some g =>
      let content := pyStrip g
      if content ≠ [] ∧ 5 < content.length then some content
      else firstNontrivialContent text ps
    | none => firstNontrivialContent text ps

/-! ### Document and image model

PyMuPDF, PIL, the scratch filesystem and `random.choice` are external black
boxes (spec section 6); they are modelled as explicit input data.  A document
either fails to parse or is a list of pages; each page carries its extracted
text and its embedded images; each image record carries the observable
behaviour of the external calls made on it. -/

structure ImgData where
  /-- `fitz.Pixmap(...)` or `pix.save(...)` raising inside the per-image
  `try` before the save completes. -/
  pixFails : Bool
  /-- `pix.n` -/
  n : Nat
  /-- `pix.alpha` -/
  alpha : Nat
  /-- `pix.save` raising after the CMYK check passed. -/
  saveFails : Bool
  /-- `os.path.exists(image_path)` -/
  fileExists : Bool
  /-- `Image.open` raising. -/
  openFails : Bool
  /-- PIL-reported width. -/
  width : Nat
  /-- PIL-reported height. -/
  height : Nat
  /-- outcome of `random.choice` over the five mock SMILES, as an index. -/
  choiceIdx : Nat
deriving DecidableEq

structure PageData where
  text : List Char
  images : List ImgData
deriving DecidableEq

/-- `PatentAnalyzer._extract_text_from_pdf` (patent_analyzer.py 71-89):
concatenate every page's text followed by a newline, count pages; any parse
failure is caught and yields empty text and zero pages. -/
def extract_text_from_pdf (doc : Except Unit (List PageData)) : List Char × Nat :=
  match doc with
  | .error _ => ([], 0)
  | .ok pages => (pages.foldl (fun acc p => acc ++ p.text ++ ['\n']) [], pages.length)

/-- The `mock_smiles` list of `_analyze_chemical_structure_image`. -/
def mock_smiles : List (List Char) :=
  ["c1ccccc1".data, "CCO".data, "CC(=O)O".data, "c1ccc2ccccc2c1".data, "CC(C)O".data]

/-- `PatentAnalyzer._analyze_chemical_structure_image` (patent_analyzer.py
227-260): `None` when the file is missing, PIL fails, or the image is smaller
than 50x50; otherwise one of the five fixed mock SMILES strings. -/
def analyze_chemical_structure_image (img : ImgData) : Option (List Char) :=
  if img.fileExists = false then none
  else if img.openFails = true then none
  else if img.width < 50 ∨ img.height < 50 then none
  else some (mock_smiles.get ⟨img.choiceIdx % 5, Nat.mod_lt _ (by decide)⟩)

/-- One iteration of the per-image loop of `_extract_images_and_analyze`
(patent_analyzer.py 198-218) over the state (images_extracted, smiles_list):
a raising Pixmap/save skips the image; a CMYK-like image (n - alpha ≥ 4) is
skipped; otherwise the image is counted and, when the stub analysis returns a
truthy string, that string is appended. -/
def imgStep (st : Nat × List (List Char)) (img : ImgData) : Nat × List (List Char) :=
  if img.pixFails then st
  else if img.n - img.alpha < 4 then
    if img.saveFails then st
    else
      match analyze_chemical_structure_image img with
      | some s => if s ≠ [] then (st.1 + 1, st.2 ++ [s]) else (st.1 + 1, st.2)
      | none => (st.1 + 1, st.2)
  else st

/-- `PatentAnalyzer._extract_images_and_analyze` (patent_analyzer.py 181-225):
fold `imgStep` over every image of every page; a document-level failure is
caught and yields `(0, [])`. -/
def extract_images_and_analyze (doc : Except Unit (List PageData)) :
    Nat × List (List Char) :=
  match doc with
  | .error _ => (0, [])
  | .ok pages => pages.foldl (fun st page => page.images.foldl imgStep st) (0, [])

/-! ### Analysis summary and result -/

structure Summary where
  total_compounds : Nat
  total_structures : Nat
  pages_analyzed : Nat
  images_found : Nat
  compound_types : List (List Char)
  patent_strength : List Char
  novelty_assessment : List Char
deriving DecidableEq

structure AnalysisResult where
  chemical_formulas : List (List Char)
  smiles_structures : List (List Char)
  patent_elements : List (String × List Char)
  analysis_summary : Summary
  images_extracted : Nat
  pages_processed : Nat
deriving DecidableEq

/-- The compound-type label of one formula (patent_analyzer.py 273-279). -/
def compoundType (f : List Char) : List Char :=
  if hasSubstr f "C".data && hasSubstr f "H".data then "有機化合物".data
  else if ["Na".data, "K".data, "Ca".data, "Mg".data].any (fun e => hasSubstr f e) then
    "無機鹽類".data
  else "其他化合物".data

/-- `PatentAnalyzer._generate_analysis_summary` (patent_analyzer.py 262-293),
taking the already-computed components of the result dict.  Python's
`list(set(...))` has unspecified order; the model fixes first-occurrence
order (`eraseDups`). -/
def generate_analysis_summary (formulas smiles : List (List Char))
    (elems : List (String × List Char)) (pages images : Nat) : Summary :=
  let compound_types := (formulas.map compoundType).eraseDups
  let strength1 :=
    match elems.lookup "claims" with
    | some c => if 100 < c.length then "中等".data else "低".data
    | none => "低".data
  let strength2 := if 5 < formulas.length then "高".data else strength1
  { total_compounds := formulas.length
  , total_structures := smiles.length
  , pages_analyzed := pages
  , images_found := images
  , compound_types := compound_types
  , patent_strength := strength2
  , novelty_assessment := "需進一步評估".data }

/-- `PatentAnalyzer.analyze_patent_pdf` (patent_analyzer.py 21-69): the
sequential pipeline over one parsed document. -/
def analyze_patent_pdf (doc : Except Unit (List PageData)) : AnalysisResult :=
  let tp := extract_text_from_pdf doc
  let elems := extract_patent_elements tp.1
  let formulas := extract_chemical_formulas tp.1
  let ia := extract_images_and_analyze doc
  { chemical_formulas := formulas
  , smiles_structures := ia.2
  , patent_elements := elems
  , analysis_summary := generate_analysis_summary formulas ia.2 elems tp.2 ia.1
  , images_extracted := ia.1
  , pages_processed := tp.2 }

/-! ### Task registry and background worker (src/routes/patent.py)

A task entry is the Python dict created by `upload_patent` line 95; its two
optional keys `result` and `error` are `Option`s.  The worker `run_analysis`
is embedded as the list of registry writes it performs, one `RegOp` per
mutating Python statement, as a function of the outcome of
`analyzer.analyze_patent_pdf` (the only raising expression inside the outer
`try`: the registry writes cannot raise, and the file-cleanup block swallows
its own exceptions). -/

inductive Status where
  | pending
  | processing
  | completed
  | failed
deriving DecidableEq

structure TaskEntry where
  status : Status
  progress : Nat
  message : String
  filename : List Char
  created_at : Nat
  result : Option AnalysisResult
  error : Option String
deriving DecidableEq

inductive RegOp where
  | setStatus (s : Status)
  | setProgress (n : Nat)
  | setMessage (m : String)
  | setResult (r : AnalysisResult)
  | setError (e : String)
deriving DecidableEq

def applyOp (t : TaskEntry) : RegOp → TaskEntry
  | .setStatus s => { t with status := s }
  | .setProgress n => { t with progress := n }
  | .setMessage m => { t with message := m }
  | .setResult r => { t with result := some r }
  | .setError e => { t with error := some e }

/-- The entry written by `upload_patent` lines 95-101. -/
def initEntry (fn : List Char) (ct : Nat) : TaskEntry :=
  { status := .pending, progress := 0, message := "等待處理...", filename := fn
  , created_at := ct, result := none, error := none }

/-- The registry writes of `run_analysis` (patent.py 24-55), in program
order, as a function of the analysis outcome. -/
def workerOps : Except String AnalysisResult → List RegOp
  | .ok r =>
    [.setStatus .processing, .setProgress 10, .setMessage "開始分析PDF檔案...",
     .setProgress 90, .setMessage "生成分析報告...",
     .setStatus .completed, .setProgress 100, .setMessage "分析完成", .setResult r]
  | .error e =>
    [.setStatus .processing, .setProgress 10, .setMessage "開始分析PDF檔案...",
     .setStatus .failed, .setMessage ("分析失敗: " ++ e), .setError e]

/-- The task entry after the first `k` writes of the worker: every state of
the entry that a concurrent reader of the registry can observe. -/
def reachEntry (fn : List Char) (ct : Nat) (o : Except String AnalysisResult)
    (k : Nat) : TaskEntry :=
  ((workerOps o).take k).foldl applyOp (initEntry fn ct)

/-- The task entry after the worker has finished. -/
def runWorker (fn : List Char) (ct : Nat) (o : Except String AnalysisResult) :
    TaskEntry :=
  (workerOps o).foldl applyOp (initEntry fn ct)

/-- The sequence of values written to the entry's `status` key over the
task's life: `pending` at creation, then the worker's status writes. -/
def statusTrace (o : Except String AnalysisResult) : List Status :=
  Status.pending ::
    (workerOps o).filterMap (fun op =>
      match op with
      | .setStatus s => some s
      | _ => none)

/-! ### HTTP handlers (src/routes/patent.py) -/

def MAX_FILE_SIZE : Nat := 50 * 1024 * 1024

def ALLOWED_EXTENSIONS : List (List Char) := ["pdf".data]

/-- `allowed_file` (patent.py 20-22): the name contains a dot and the
lower-cased text after the last dot is an allowed extension. -/
def allowed_file (filename : List Char) : Bool :=
  filename.contains '.' &&
    ALLOWED_EXTENSIONS.contains
      ((filename.reverse.takeWhile (fun c => c ≠ '.')).reverse.map Char.toLower)

/-- The request data reaching `upload_patent`: whether the multipart field
`file` is present, the client filename, and the size the saved scratch file
turns out to have. -/
structure UploadReq where
  hasFile : Bool
  filename : List Char
  savedSize : Nat
deriving DecidableEq

/-- Scratch-filesystem operations performed by `upload_patent`, in order. -/
inductive FsOp where
  | save
  | removeFile
  | rmdir
deriving DecidableEq

inductive UploadResp where
  | err (msg : String)
  | ok (task_id : String) (filename : List Char)
deriving DecidableEq

/-- `upload_patent` (patent.py 57-118), nominal paths: the filesystem
operations performed (in order, all before the response is returned), the
HTTP status, the body, and the registry after the request. -/
def upload_patent (req : UploadReq) (reg : List (String × TaskEntry))
    (tid : String) (ct : Nat) :
    List FsOp × Nat × UploadResp × List (String × TaskEntry) :=
  if req.hasFile = false then ([], 400, .err "沒有檔案被上傳", reg)
  else if req.filename = [] then ([], 400, .err "沒有選擇檔案", reg)
  else if allowed_file req.filename then
    if MAX_FILE_SIZE < req.savedSize then
      ([.save, .removeFile, .rmdir], 400, .err "檔案大小超過限制 (50MB)", reg)
    else
      ([.save], 200, .ok tid req.filename, (tid, initEntry req.filename ct) :: reg)
  else ([], 400, .err "不支援的檔案格式，請上傳PDF檔案", reg)

inductive AnalyzeResp where
  | ok (task_id : String) (st : Status) (result : AnalysisResult)
  | failedR (task_id : String) (error : String)
  | inProgress (task_id : String) (st : Status) (progress : Nat) (message : String)
  | err (msg : String)
deriving DecidableEq

/-- `get_analysis_result` (patent.py 120-153), i.e. `GET /analyze/{task_id}`.
In the completed branch the source reads `task['result']` directly: a missing
key raises `KeyError`, which the handler's outer `except` turns into a 500. -/
def get_analysis_result (reg : List (String × TaskEntry)) (tid : String) :
    Nat × AnalyzeResp :=
  match reg.lookup tid with
  | none => (404, .err "找不到指定的分析任務")
  | some task =>
    match task.status with
    | .completed =>
      match task.result with
      | some r => (200, .ok tid task.status r)
      | none => (500, .err "取得結果失敗: 'result'")
    | .failed => (500, .failedR tid (task.error.getD "未知錯誤"))
    | _ => (202, .inProgress tid task.status task.progress task.message)

inductive StatusResp where
  | err (msg : String)
  | ok (task_id : String) (st : Status) (progress : Nat) (message : String)
      (filename : List Char) (created_at : Nat)
deriving DecidableEq

/-- `get_analysis_status` (patent.py 155-177), i.e. `GET /status/{task_id}`. -/
def get_analysis_status (reg : List (String × TaskEntry)) (tid : String) :
    Nat × StatusResp :=
  match reg.lookup tid with
  | none => (404, .err "找不到指定的分析任務")
  | some task =>
    (200, .ok tid task.status task.progress task.message task.filename task.created_at)

structure ReportData where
  task_id : String
  report_title : String
  filename : List Char
  generated_at : String
  executive_summary : String
  formulas : List (List Char)
  smiles : List (List Char)
  compound_count : Nat
  compound_types : List (List Char)
  patent_elements : List (String × List Char)
  pages_analyzed : Nat
  images_extracted : Nat
  patent_strength : List Char
  recommendations : List String
deriving DecidableEq

/-- The `report_data` document of `generate_report` lines 197-222. -/
def mkReport (tid : String) (fn : List Char) (now : String) (r : AnalysisResult) :
    ReportData :=
  { task_id := tid
  , report_title := "專利分析報告"
  , filename := fn
  , generated_at := now
  , executive_summary :=
      "本專利共識別出 " ++ toString r.chemical_formulas.length ++ " 個化學式和 " ++
        toString r.smiles_structures.length ++ " 個化學結構，分析了 " ++
        toString r.pages_processed ++ " 頁內容。"
  , formulas := r.chemical_formulas
  , smiles := r.smiles_structures
  , compound_count := r.analysis_summary.total_compounds
  , compound_types := r.analysis_summary.compound_types
  , patent_elements := r.patent_elements
  , pages_analyzed := r.pages_processed
  , images_extracted := r.images_extracted
  , patent_strength := r.analysis_summary.patent_strength
  , recommendations :=
      ["建議進一步驗證化學結構的準確性", "考慮與現有專利進行比較分析",
       "評估商業化可行性和市場潛力"] }

inductive ReportResp where
  | err (msg : String)
  | report (r : ReportData)
deriving DecidableEq

/-- `generate_report` (patent.py 179-227), i.e. `GET /report/{task_id}`; `now`
is the external wall-clock string.  As in `get_analysis_result`, a completed
entry without `result` would raise `KeyError`, surfaced as a 500 by the outer
`except`. -/
def generate_report (reg : List (String × TaskEntry)) (tid : String)
    (now : String) : Nat × ReportResp :=
  match reg.lookup tid with
  | none => (404, .err "找不到指定的分析任務")
  | some task =>
    if task.status ≠ .completed then (400, .err "分析尚未完成，無法生成報告")
    else
      match task.result with
      | none => (500, .err "報告生成失敗: 'result'")
      | some r => (200, .report (mkReport tid task.filename now r))

/-! ## Helper lemmas -/

theorem formulaLoop_nodup (ms : List (List Char)) :
    ∀ acc : List (List Char), acc.Nodup → (formulaLoop ms acc).Nodup := by
  induction ms with
  | nil => intro acc h; exact h
  | cons m ms ih =>
    intro acc h
    unfold formulaLoop
    split
    · next hc =>
      refine ih _ ?_
      rw [List.nodup_append]
      refine ⟨h, List.nodup_singleton m, ?_⟩
      intro a ha hm
      rw [List.mem_singleton] at hm
      exact hc.2.2 (hm ▸ ha)
    · exact ih _ h

theorem imgStep_le (st : Nat × List (List Char)) (img : ImgData)
    (h : st.2.length ≤ st.1) : (imgStep st img).2.length ≤ (imgStep st img).1 := by
  unfold imgStep
  split
  · exact h
  · split
    · split
      · exact h
      · split
        · split <;> simp <;> omega
        · simpa using Nat.le_succ_of_le h
    · exact h

theorem imgFold_le (l : List ImgData) :
    ∀ st : Nat × List (List Char), st.2.length ≤ st.1 →
      ((l.foldl imgStep st).2.length ≤ (l.foldl imgStep st).1) := by
  induction l with
  | nil => intro st h; exact h
  | cons img l ih => intro st h; exact ih _ (imgStep_le st img h)

theorem pageFold_le (pages : List PageData) :
    ∀ st : Nat × List (List Char), st.2.length ≤ st.1 →
      (((pages.foldl (fun st page => page.images.foldl imgStep st) st).2.length ≤
        (pages.foldl (fun st page => page.images.foldl imgStep st) st).1)) := by
  induction pages with
  | nil => intro st h; exact h
  | cons p pages ih => intro st h; exact ih _ (imgFold_le p.images st h)

theorem extract_images_le (doc : Except Unit (List PageData)) :
    (extract_images_and_analyze doc).2.length ≤ (extract_images_and_analyze doc).1 := by
  cases doc with
  | error u => simp [extract_images_and_analyze]
  | ok pages => exact pageFold_le pages (0, []) (by simp)

theorem textFold_join (pages : List PageData) :
    ∀ acc : List Char,
      pages.foldl (fun acc p => acc ++ p.text ++ ['\n']) acc =
        acc ++ (pages.map (fun p => p.text ++ ['\n'])).flatten := by
  induction pages with
  | nil => intro acc; simp
  | cons p pages ih =>
    intro acc
    simp only [List.foldl_cons, List.map_cons, List.flatten_cons, ih]
    simp [List.append_assoc]

theorem tryPatterns_bounds (text : List Char) :
    ∀ (ps : List RE) (v : List Char), tryPatterns text ps = some v →
      5 < v.length ∧ v.length ≤ 500 := by
  intro ps
  induction ps with
  | nil => intro v h; simp [tryPatterns] at h
  | cons p ps ih =>
    intro v h
    unfold tryPatterns at h
    cases hs : reSearch p text with
    | none => rw [hs] at h; exact ih v h
    | some g =>
      rw [hs] at h
      simp only at h
      by_cases hc : pyStrip g ≠ [] ∧ 5 < (pyStrip g).length
      · rw [if_pos hc] at h
        have hv : v = (pyStrip g).take 500 := by
          cases h; rfl
        subst hv
        constructor
        · rw [List.length_take]; exact lt_min (by norm_num) hc.2
        · exact List.length_take_le _ _
      · rw [if_neg hc] at h; exact ih v h

/-! ## Claim theorems -/

/-- Claim C1: for every task created by an accepted upload, the sequence of
status values written to its registry entry is exactly pending, then
processing, then exactly one of completed or failed; processing is never
skipped and no earlier status is written again after a later one. -/
theorem claim_status_sequence (o : Except String AnalysisResult) :
    statusTrace o = [.pending, .processing, .completed] ∨
    statusTrace o = [.pending, .processing, .failed] := by
  cases o with
  | ok r => exact Or.inl rfl
  | error e => exact Or.inr rfl

/-- Claim C2 (counterexample): after the worker's sixth write (the
`status = 'completed'` assignment of patent.py line 40) and before its ninth
(the `result` assignment of line 43), the entry has status completed but no
`result` key, so "result is present iff status is completed" fails at a
reachable registry state. -/
theorem claim_result_iff_completed_cex :
    (reachEntry [] 0 (.ok (analyze_patent_pdf (.error ()))) 6).status = .completed ∧
    (reachEntry [] 0 (.ok (analyze_patent_pdf (.error ()))) 6).result = none :=
  ⟨rfl, rfl⟩

/-- Claim C2 (amended): at every reachable state of a task's registry entry
except the three intermediate states between the worker's completed-status
write and its result write (writes 6, 7 and 8 of a successful run), the
`result` key is present iff the status is completed; in particular this holds
at every state of a failed run and at every quiescent state. -/
theorem claim_result_iff_completed (fn : List Char) (ct : Nat)
    (o : Except String AnalysisResult) (k : Nat)
    (h : ∀ r, o = .ok r → k < 6 ∨ 9 ≤ k) :
    (reachEntry fn ct o k).result.isSome = true ↔
    (reachEntry fn ct o k).status = .completed := by
  cases o with
  | error e =>
    rcases Nat.lt_or_ge k 6 with hk | hk
    · interval_cases k <;> simp [reachEntry, workerOps, applyOp, initEntry]
    · rw [reachEntry, List.take_of_length_le (by simpa [workerOps] using hk)]
      simp [workerOps, applyOp, initEntry]
  | ok r =>
    rcases h r rfl with hk | hk
    · interval_cases k <;> simp [reachEntry, workerOps, applyOp, initEntry]
    · rw [reachEntry, List.take_of_length_le (by simp [workerOps]; omega)]
      simp [workerOps, applyOp, initEntry]

/-- Witness for C2 (amended): the final state of a failed run satisfies the
equivalence. -/
theorem claim_result_iff_completed_w :
    ((reachEntry [] 0 (.error "x") 9).result.isSome = true ↔
     (reachEntry [] 0 (.error "x") 9).status = .completed) :=
  claim_result_iff_completed [] 0 (.error "x") 9 (fun _ h => nomatch h)

/-- Claim C3: when the extraction pipeline raises, the worker (a total
function here, so it never propagates the exception) leaves the entry with
status failed and the exception text in `error`, and a later
`GET /analyze/{task_id}` returns 500 with that text. -/
theorem claim_failure_marks_failed (fn : List Char) (ct : Nat) (e : String)
    (tid : String) (reg : List (String × TaskEntry)) :
    (runWorker fn ct (.error e)).status = .failed ∧
    (runWorker fn ct (.error e)).error = some e ∧
    get_analysis_result ((tid, runWorker fn ct (.error e)) :: reg) tid =
      (500, .failedR tid e) := by
  refine ⟨rfl, rfl, ?_⟩
  simp [get_analysis_result, List.lookup, runWorker, workerOps, applyOp, initEntry]

/-- Claim C6: text extraction concatenates every page's text (each followed
by the newline the source appends) and reports the page count; a
document-parsing failure yields empty text and zero pages instead of an
exception. -/
theorem claim_text_extraction (pages : List PageData) (u : Unit) :
    extract_text_from_pdf (.ok pages) =
      ((pages.map (fun p => p.text ++ ['\n'])).flatten, pages.length) ∧
    extract_text_from_pdf (.error u) = ([], 0) := by
  constructor
  · show (pages.foldl (fun acc p => acc ++ p.text ++ ['\n']) [], pages.length) = _
    rw [textFold_join pages []]
    simp
  · rfl

/-- Claim C7: an accepted-type upload whose saved file exceeds the 50 MB
limit gets a 400 response whose message mentions "50MB", after the scratch
file and directory are removed (the filesystem trace is exactly save, remove,
rmdir, all before the response), and no task entry is created. -/
theorem claim_upload_oversize (req : UploadReq) (reg : List (String × TaskEntry))
    (tid : String) (ct : Nat) (h1 : req.hasFile = true)
    (h2 : req.filename ≠ []) (h3 : allowed_file req.filename = true)
    (h4 : MAX_FILE_SIZE < req.savedSize) :
    upload_patent req reg tid ct =
      ([.save, .removeFile, .rmdir], 400, .err "檔案大小超過限制 (50MB)", reg) ∧
    hasSubstr "檔案大小超過限制 (50MB)".data "50MB".data = true := by
  refine ⟨?_, by decide⟩
  simp [upload_patent, h1, h2, h3, h4]

/-- Witness for C7: a 51 MiB file named a.pdf. -/
theorem claim_upload_oversize_w :
    upload_patent ⟨true, "a.pdf".data, 51 * 1024 * 1024⟩ [] "t" 0 =
      ([.save, .removeFile, .rmdir], 400, .err "檔案大小超過限制 (50MB)", []) :=
  (claim_upload_oversize ⟨true, "a.pdf".data, 51 * 1024 * 1024⟩ [] "t" 0 rfl
    (by decide) (by decide) (by decide)).1

/-- Claim C8: a task id absent from the registry gets a 404 from each of the
three query endpoints, whatever the rest of the registry holds. -/
theorem claim_unknown_task_404 (reg : List (String × TaskEntry)) (tid now : String)
    (h : reg.lookup tid = none) :
    (get_analysis_result reg tid).1 = 404 ∧
    (get_analysis_status reg tid).1 = 404 ∧
    (generate_report reg tid now).1 = 404 := by
  simp [get_analysis_result, get_analysis_status, generate_report, h]

/-- Witness for C8: an id not in a registry that does hold another task. -/
theorem claim_unknown_task_404_w :
    ((get_analysis_result [("a", initEntry [] 0)] "b").1 = 404 ∧
     (get_analysis_status [("a", initEntry [] 0)] "b").1 = 404 ∧
     (generate_report [("a", initEntry [] 0)] "b" "now").1 = 404) :=
  claim_unknown_task_404 [("a", initEntry [] 0)] "b" "now" (by decide)

/-- Claim C9: `GET /report/{task_id}` on a registered task whose status is not
completed returns a 400 error and no report document; and a 200 report is
returned only for a completed task (one that moreover has a result). -/
theorem claim_report_requires_completed :
    (∀ (reg : List (String × TaskEntry)) (tid now : String) (task : TaskEntry),
        reg.lookup tid = some task → task.status ≠ .completed →
        generate_report reg tid now = (400, .err "分析尚未完成，無法生成報告")) ∧
    (∀ (reg : List (String × TaskEntry)) (tid now : String),
        (generate_report reg tid now).1 = 200 →
        ∃ task, reg.lookup tid = some task ∧ task.status = .completed ∧
          task.result.isSome = true) := by
  constructor
  · intro reg tid now task hl hs
    simp [generate_report, hl, hs]
  · intro reg tid now h200
    cases hl : reg.lookup tid with
    | none => simp [generate_report, hl] at h200
    | some task =>
      by_cases hs : task.status = .completed
      · cases hr : task.result with
        | none => simp [generate_report, hl, hs, hr] at h200
        | some r => exact ⟨task, rfl, hs, by simp [hr]⟩
      · simp [generate_report, hl, hs] at h200

/-- Witness for C9: a still-pending task gets the 400 error. -/
theorem claim_report_requires_completed_w :
    generate_report [("t", initEntry [] 0)] "t" "now" =
      (400, .err "分析尚未完成，無法生成報告") :=
  claim_report_requires_completed.1 [("t", initEntry [] 0)] "t" "now"
    (initEntry [] 0) (by decide) (by decide)

/-- Claim C10: image extraction appends a SMILES-like string only for an
image that was saved and counted, so the list of SMILES strings is never
longer than the count of extracted images — both for the extraction stage
itself and inside every full analysis result. -/
theorem claim_smiles_le_images (doc : Except Unit (List PageData)) :
    (extract_images_and_analyze doc).2.length ≤ (extract_images_and_analyze doc).1 ∧
    (analyze_patent_pdf doc).smiles_structures.length ≤
      (analyze_patent_pdf doc).images_extracted := by
  refine ⟨extract_images_le doc, ?_⟩
  simpa [analyze_patent_pdf] using extract_images_le doc

/-- Claim C4 (counterexample): extraction is driven by word-boundary-anchored
patterns, so a text that contains "C6H6" and "NaCl" only as substrings of
longer word-character runs yields no matches at all: the returned list is
empty, and neither token nor any matched substring appears in it. -/
theorem claim_formula_extraction_cex :
    hasSubstr "aC6H6 aNaCl".data "C6H6".data = true ∧
    hasSubstr "aC6H6 aNaCl".data "NaCl".data = true ∧
    extract_chemical_formulas "aC6H6 aNaCl".data = [] := by
  exact ⟨by decide, by decide, by decide⟩

/-- Claim C4 (amended): for every input text, formula extraction returns a
list with no duplicates and at most 20 entries, and on the empty text it
returns the empty list; on a text containing "C6H6" and "NaCl" as
word-boundary-delimited tokens reached before the 20-entry cap — such as the
document "C6H6 NaCl" — both tokens appear in the returned list. -/
theorem claim_formula_extraction (text : List Char) :
    (extract_chemical_formulas text).Nodup ∧
    (extract_chemical_formulas text).length ≤ 20 ∧
    extract_chemical_formulas [] = [] ∧
    "C6H6".data ∈ extract_chemical_formulas "C6H6 NaCl".data ∧
    "NaCl".data ∈ extract_chemical_formulas "C6H6 NaCl".data := by
  refine ⟨?_, List.length_take_le _ _, rfl, by decide, by decide⟩
  exact ((formulaLoop_nodup _ [] List.nodup_nil).sublist (List.take_sublist _ _))

/-- Claim C5: every field value stored by `_extract_patent_elements` has
length greater than 5 and at most the 500-character cap; and the per-field
pattern loop returns exactly the 500-character truncation of the first
pattern's non-trivial (length > 5) stripped match, trying no further pattern
after it. -/
theorem claim_field_extraction :
    (∀ (text : List Char) (f : String) (v : List Char),
        (f, v) ∈ extract_patent_elements text → 5 < v.length ∧ v.length ≤ 500) ∧
    (∀ (text : List Char) (ps : List RE),
        tryPatterns text ps =
          (firstNontrivialContent text ps).map (fun c => c.take 500)) := by
  constructor
  · intro text f v hm
    rw [extract_patent_elements, List.mem_filterMap] at hm
    obtain ⟨fp, _, hfp⟩ := hm
    cases ht : tryPatterns text fp.2 with
    | none => rw [ht] at hfp; simp at hfp
    | some w =>
      rw [ht] at hfp
      simp at hfp
      exact hfp.2 ▸ tryPatterns_bounds text fp.2 w ht
  · intro text ps
    induction ps with
    | nil => rfl
    | cons p ps ih =>
      unfold tryPatterns firstNontrivialContent
      cases hs : reSearch p text with
      | none => exact ih
      | some g =>
        simp only
        by_cases hc : pyStrip g ≠ [] ∧ 5 < (pyStrip g).length
        · rw [if_pos hc, if_pos hc]
          rfl
        · rw [if_neg hc, if_neg hc]
          exact ih

/-- Witness for C5: on the document "TITLE: Benzene ring" the stored title is
"Benzene ring", whose length lies in the required range. -/
theorem claim_field_extraction_w :
    5 < ("Benzene ring".data : List Char).length ∧
    ("Benzene ring".data : List Char).length ≤ 500 :=
  claim_field_extraction.1 "TITLE: Benzene ring".data "title" "Benzene ring".data
    (by decide)

end ChemPatent

